import Mathlib

/-!
Shallow embedding of the MTLAPPs image-generation front end
(`utils.ts`, `services/geminiService.ts`, `App.tsx`) and proofs of the
specification claims.  JavaScript strings are modelled as Lean `String`s,
with character-level helpers on `List Char`; nullable values are `Option`s;
thrown values are `Except` errors; the React state mutations performed by
`handleGenerateImages` are modelled as an explicit event trace applied to an
application-state record.
-/

set_option autoImplicit false
set_option maxRecDepth 4096

/-- Checks that the first list is a leading segment of the second
(character-level model of JavaScript `String.prototype.startsWith`). -/
def listStartsWith : List Char → List Char → Bool
  | [], _ => true
  | _ :: _, [] => false
  | p :: ps, c :: cs => p = c && listStartsWith ps cs

/-- Returns the suffix after the first comma, or `none` when no comma occurs
(model of `indexOf(',')` followed by `substring(commaIndex + 1)`). -/
def dropAfterComma : List Char → Option (List Char)
  | [] => none
  | c :: cs => if c = ',' then some cs else dropAfterComma cs

/-- Character-level body of `stripDataPrefix` from `utils.ts`:
if the string starts with `data:` and contains a comma, everything after the
first comma is returned; otherwise the string is returned unchanged. -/
def stripChars (s : List Char) : List Char :=
  if listStartsWith "data:".toList s then
    match dropAfterComma s with
    | some rest => rest
    | none => s
  else s

/-- `stripDataPrefix` from `utils.ts`, lifted to `String`. -/
def stripDataPrefix (s : String) : String :=
  String.mk (stripChars s.toList)

/-- JavaScript truthiness of a nullable string: `null` and `""` are falsy. -/
def truthyStr : Option String → Bool
  | none => false
  | some s => !(s == "")

/-- An image payload as passed to the generation client: base64 data plus
MIME type (`{ base64: string; mimeType: string }`). -/
structure ImageRef where
  base64 : String
  mimeType : String
deriving DecidableEq

/-- A request part: either a text part or an inline-image part
(`{ text }` / `{ inlineData: { mimeType, data } }`). -/
inductive ReqPart where
  | text (t : String)
  | inline (mimeType : String) (data : String)
deriving DecidableEq

/-- The argument record of `generateImageWithGemini`. -/
structure GenerateImageParams where
  characterImages : List (Option ImageRef)
  backgroundImage : Option ImageRef
  useBackground : Bool
  prompt : String
deriving DecidableEq

/-- One iteration of the `for (const charImage of params.characterImages)`
loop in `generateImageWithGemini`: pushes an inline part when the entry is
non-null with a truthy base64 payload. -/
def pushCharPart (acc : List ReqPart) (ci : Option ImageRef) : List ReqPart :=
  match ci with
  | some c =>
      if !(c.base64 == "") then
        acc ++ [ReqPart.inline c.mimeType ( stripDataPrefix c.base64)]
      else acc
  | none => acc

/-- The request-parts construction of `generateImageWithGemini`
(`geminiService.ts` lines 35-63): the prompt text part is pushed first, then
the background inline part when `useBackground` holds and the background
payload is truthy, then one inline part per character entry with a truthy
payload. -/
def buildParts (p : GenerateImageParams) : List ReqPart :=
  let withText : List ReqPart := [ReqPart.text p.prompt]
  let withBg : List ReqPart :=
    match p.backgroundImage with
    | some bg =>
        if p.useBackground && !(bg.base64 == "") then
          withText ++ [ReqPart.inline bg.mimeType ( stripDataPrefix bg.base64)]
        else withText
    | none => withText
  p.characterImages.foldl pushCharPart withBg

/-- Declarative description of what one character entry contributes to the
request, used to state the ordering claim about `buildParts`. -/
def charPartOf : Option ImageRef → Option ReqPart
  | some c =>
      if !(c.base64 == "") then
        some (ReqPart.inline c.mimeType ( stripDataPrefix c.base64))
      else none
  | none => none

/-- Model of the part of a browser `File` object the application reads:
its MIME `type` field. -/
structure JSFile where
  type : String
deriving DecidableEq

/-- The per-slot character-image state of `App.tsx` (`CharacterImage` in
`types.ts`). -/
structure CharacterImage where
  id : String
  file : Option JSFile
  base64 : Option String
  selected : Bool
  previewUrl : Option String
deriving DecidableEq

/-- The background-image state of `App.tsx` (`BackgroundImage` in
`types.ts`). -/
structure BackgroundImage where
  file : Option JSFile
  base64 : Option String
  previewUrl : Option String
  useBackground : Bool
deriving DecidableEq

/-- The five selectable aspect choices of `App.tsx` (the union type in
`types.ts` listing 1:1, 4:3, 3:4, 16:9 and 9:16). -/
inductive Aspect where
  | square
  | r4x3
  | r3x4
  | r16x9
  | r9x16
deriving DecidableEq

/-- The aspect text chosen by the `switch` statement that opens the prompt
construction in `handleGenerateImages`. -/
def aspectText : Aspect → String
  | Aspect.square => "1:1 (hình vuông)"
  | Aspect.r4x3 => "4:3"
  | Aspect.r3x4 => "3:4"
  | Aspect.r16x9 => "16:9"
  | Aspect.r9x16 => "9:16"

/-- The orientation hint chosen by the same `switch`. -/
def orientationHint : Aspect → String
  | Aspect.square => "định hướng VUÔNG (SQUARE)"
  | Aspect.r4x3 => "định hướng NẰM NGANG (LANDSCAPE)"
  | Aspect.r3x4 => "định hướng DỌC (PORTRAIT)"
  | Aspect.r16x9 => "định hướng NẰM NGANG (LANDSCAPE)"
  | Aspect.r9x16 => "định hướng DỌC (PORTRAIT)"

/-- JavaScript whitespace for `String.prototype.trim` (the common cases:
space, tab, newline, carriage return, form feed, vertical tab). -/
def isJsWs (c : Char) : Bool :=
  c = ' ' || c = '\t' || c = '\n' || c = '\r' || c = '\x0c' || c = '\x0b'

/-- Model of `String.prototype.trim`: drops leading and trailing
whitespace. -/
def jsTrim (s : String) : String :=
  String.mk (((s.toList.dropWhile isJsWs).reverse.dropWhile isJsWs).reverse)

/-- The `finalPrompt` construction of `handleGenerateImages`
(`App.tsx` lines 288-298). -/
def buildFinalPrompt (aspect : Aspect) (useBg : Bool) (bgi : Option ImageRef)
    (prompt : String) : String :=
  let p1 := "Tạo một hình ảnh hoạt hình ĐỘ PHÂN GIẢI CAO (4K) với TỶ LỆ KHUNG HÌNH CHÍNH XÁC LÀ "
    ++ aspectText aspect
    ++ ". Đây là YÊU CẦU BẮT BUỘC TUYỆT ĐỐI. Hình ảnh đầu ra PHẢI có "
    ++ orientationHint aspect ++ "."
  let p2 := p1
    ++ " Đảm bảo phong cách hoạt hình, và tính đồng nhất của nhân vật từ các ảnh tham chiếu đã cung cấp."
  let p3 :=
    if useBg && bgi.isSome then
      p2 ++ " Sử dụng hình ảnh đính kèm đầu tiên làm bối cảnh chính, KHÔNG thay đổi hoặc thêm vào bối cảnh hiện có."
    else p2
  let p4 := p3 ++ " Mô tả chi tiết: " ++ jsTrim prompt ++ "."
  p4 ++ " HÌNH ẢNH CUỐI CÙNG PHẢI TUÂN THỦ TỶ LỆ KHUNG HÌNH " ++ aspectText aspect
    ++ " VÀ " ++ orientationHint aspect ++ "."

/-- The MIME type read from a character slot's file (`char.file!.type`). -/
def fileTypeOf (c : CharacterImage) : String :=
  match c.file with
  | some f => f.type
  | none => ""

/-- The `selectedCharImages` filter-and-map of `handleGenerateImages`
(`App.tsx` lines 237-242): keeps slots that are selected with a truthy
base64 payload and a file, projecting payload and MIME type. -/
def selectedCharImages (chars : List CharacterImage) : List ImageRef :=
  (chars.filter (fun c => c.selected && truthyStr c.base64 && c.file.isSome)).map
    (fun c => ImageRef.mk (c.base64.getD "") (fileTypeOf c))

/-- The `bgImage` expression of `handleGenerateImages`
(`App.tsx` lines 244-246). -/
def bgImageOf (bg : BackgroundImage) : Option ImageRef :=
  if bg.useBackground && truthyStr bg.base64 && bg.file.isSome then
    some (ImageRef.mk (bg.base64.getD "") (match bg.file with | some f => f.type | none => ""))
  else none

/-- The validation message shown when no character image is selected and no
background is used. -/
def noSelectionMsg : String :=
  "Vui lòng tải lên và chọn ít nhất một ảnh nhân vật hoặc sử dụng ảnh nền."

/-- The validation message shown when the prompt is empty or blank. -/
def noPromptMsg : String :=
  "Vui lòng nhập mô tả cho việc tạo ảnh."

/-- A value thrown in JavaScript: an `Error` carrying a message, or any
other value. -/
inductive JSValue where
  | error (message : String)
  | value (v : String)
deriving DecidableEq

/-- The message read by `(err as Error).message` on a thrown value: a
non-`Error` value has no `message` property, which reads as `undefined`. -/
def messageOf : JSValue → String
  | JSValue.error m => m
  | JSValue.value _ => "undefined"

/-- `Promise.all` over the two generation calls: succeeds with both values
when both succeed, otherwise fails with a failing call's reason. -/
def promiseAll2 (r1 r2 : Except JSValue String) :
    Except JSValue (String × String) :=
  match r1, r2 with
  | Except.ok a, Except.ok b => Except.ok (a, b)
  | Except.error e, _ => Except.error e
  | _, Except.error e => Except.error e

/-- An observable step of `handleGenerateImages`: a state-setter call or a
network call to the generation client. -/
inductive Ev where
  | setLoading (b : Bool)
  | setError (e : Option String)
  | networkCall (params : GenerateImageParams)
  | prependImages (imgs : List String)
deriving DecidableEq

/-- The event trace of one run of `handleGenerateImages`
(`App.tsx` lines 231-319), with the outcomes of the two generation calls
supplied as parameters `r1`, `r2`. -/
def genTrace (chars : List CharacterImage) (bg : BackgroundImage)
    (prompt : String) (aspect : Aspect) (r1 r2 : Except JSValue String) :
    List Ev :=
  let pre := [Ev.setLoading true, Ev.setError none]
  let selected := selectedCharImages chars
  let bgi := bgImageOf bg
  if selected.isEmpty && (bgi.isNone || !bg.useBackground) then
    pre ++ [Ev.setError (some noSelectionMsg), Ev.setLoading false]
  else if jsTrim prompt == "" then
    pre ++ [Ev.setError (some noPromptMsg), Ev.setLoading false]
  else
    let fp := buildFinalPrompt aspect bg.useBackground bgi prompt
    let params : GenerateImageParams :=
      GenerateImageParams.mk (selected.map some) bgi bg.useBackground fp
    let tail :=
      match promiseAll2 r1 r2 with
      | Except.ok (a, b) => [Ev.prependImages [a, b]]
      | Except.error e =>
          [Ev.setError (some ("Lỗi tạo ảnh: " ++ messageOf e))]
    pre ++ [Ev.networkCall params, Ev.networkCall params] ++ tail
      ++ [Ev.setLoading false]

/-- The application state touched by `handleGenerateImages`. -/
structure AppState where
  loading : Bool
  error : Option String
  generatedImages : List String
deriving DecidableEq

/-- Applies one observable step to the application state; a network call
does not itself change this state. -/
def applyEv (s : AppState) : Ev → AppState
  | Ev.setLoading b => AppState.mk b s.error s.generatedImages
  | Ev.setError e => AppState.mk s.loading e s.generatedImages
  | Ev.networkCall _ => s
  | Ev.prependImages imgs =>
      AppState.mk s.loading s.error (imgs ++ s.generatedImages)

/-- Applies a whole event trace, left to right. -/
def applyEvents (s : AppState) (evs : List Ev) : AppState :=
  evs.foldl applyEv s

/-- An inline-image field of a response part (`{ mimeType, data }`). -/
structure InlineData where
  mimeType : String
  data : String
deriving DecidableEq

/-- A content part of a model response; its inline-image field may be
absent. -/
structure RespPart where
  inlineData : Option InlineData
deriving DecidableEq

/-- The content of a response candidate; its parts list may be absent. -/
structure Content where
  parts : Option (List RespPart)
deriving DecidableEq

/-- One response candidate; its content may be absent. -/
structure Candidate where
  content : Option Content
deriving DecidableEq

/-- A model response: an optional candidates list. -/
structure GenResponse where
  candidates : Option (List Candidate)
deriving DecidableEq

/-- The optional chain
`response.candidates?.[0]?.content?.parts?.[0]?.inlineData`
(`geminiService.ts` line 74). -/
def firstInline (r : GenResponse) : Option InlineData :=
  match r.candidates with
  | none => none
  | some cands =>
    match cands.head? with
    | none => none
    | some cand =>
      match cand.content with
      | none => none
      | some content =>
        match content.parts with
        | none => none
        | some ps =>
          match ps.head? with
          | none => none
          | some p => p.inlineData

/-- Application-level failure of the response-handling step. -/
inductive GenError where
  | noImageReturned
deriving DecidableEq

/-- The message of the no-image error thrown at `geminiService.ts` line 80. -/
def noImageMsg : String :=
  "Could not generate image: No image data returned."

/-- The response-handling step of `generateImageWithGemini`
(`geminiService.ts` lines 74-81): re-attach the data-URI prefix when an
inline image is present, otherwise fail with the no-image error. -/
def processResponse (r : GenResponse) : Except GenError String :=
  match firstInline r with
  | some d => Except.ok ("data:" ++ d.mimeType ++ ";base64," ++ d.data)
  | none => Except.error GenError.noImageReturned

/-- Model of JavaScript `String.prototype.includes` on character lists. -/
def containsSeq : List Char → List Char → Bool
  | [], pat => listStartsWith pat []
  | c :: rest, pat => listStartsWith pat (c :: rest) || containsSeq rest pat

/-- `haystack.includes(needle)` for Lean strings. -/
def jsIncludes (s pat : String) : Bool :=
  containsSeq s.toList pat.toList

/-- The localized quota message thrown when the credential-reselection hook
is available (`geminiService.ts` lines 89-92). -/
def quotaMsgHook : String :=
  "Hạn mức API đã hết. Vui lòng kiểm tra gói dịch vụ và chi tiết thanh toán của bạn, hoặc thử chọn một khóa API khác. "
    ++ "Bạn có thể tìm thêm thông tin tại: ai.google.dev/gemini-api/docs/rate-limits"

/-- The localized quota message thrown when the hook is unavailable
(`geminiService.ts` lines 94-97). -/
def quotaMsgNoHook : String :=
  "Hạn mức API đã hết. Vui lòng kiểm tra gói dịch vụ và chi tiết thanh toán của bạn. "
    ++ "Bạn có thể tìm thêm thông tin tại: ai.google.dev/gemini-api/docs/rate-limits"

/-- The localized invalid-credential message thrown when the hook is
available (`geminiService.ts` line 106). -/
def invalidKeyMsgHook : String :=
  "Khóa API không hợp lệ. Vui lòng thử lại sau khi chọn khóa."

/-- The localized invalid-credential message thrown when the hook is
unavailable (`geminiService.ts` line 108). -/
def invalidKeyMsgNoHook : String :=
  "Khóa API không hợp lệ. Vui lòng kiểm tra khóa API của bạn."

/-- The outcome of the catch block: the value re-thrown to the caller and
the number of times `window.aistudio.openSelectKey` was invoked. -/
structure ClassifyOutcome where
  raised : JSValue
  hookCalls : Nat
deriving DecidableEq

/-- The catch block of `generateImageWithGemini`
(`geminiService.ts` lines 82-112).  `hookAvailable` models the capability
probe `window.aistudio && typeof window.aistudio.openSelectKey ===
'function'`. -/
def classifyError (hookAvailable : Bool) (e : JSValue) : ClassifyOutcome :=
  match e with
  | JSValue.error msg =>
    if jsIncludes msg "RESOURCE_EXHAUSTED" then
      if hookAvailable then
        ClassifyOutcome.mk (JSValue.error quotaMsgHook) 1
      else
        ClassifyOutcome.mk (JSValue.error quotaMsgNoHook) 0
    else if jsIncludes msg "Requested entity was not found." then
      if hookAvailable then
        ClassifyOutcome.mk (JSValue.error invalidKeyMsgHook) 1
      else
        ClassifyOutcome.mk (JSValue.error invalidKeyMsgNoHook) 0
    else
      ClassifyOutcome.mk (JSValue.error msg) 0
  | JSValue.value v => ClassifyOutcome.mk (JSValue.value v) 0

/-- A saved-image record (`StoredImage` in `types.ts`). -/
structure StoredImage where
  id : String
  url : String
  timestamp : Nat
deriving DecidableEq

/-- The saved-images state: the React `savedImages` list and the
local-storage slot under `LOCAL_STORAGE_KEY` (holding the parsed list, or
`none` when the key is absent). -/
structure SaveState where
  savedImages : List StoredImage
  storage : Option (List StoredImage)
deriving DecidableEq

/-- The id written by `handleSaveImage`: the template
`Date.now() + "-" + index`, with the clock value passed in as `now`. -/
def mkId (now idx : Nat) : String :=
  toString now ++ "-" ++ toString idx

/-- `handleSaveImage` (`App.tsx` lines 330-345): builds a record from the
clock and the grid index, appends it to the saved list and rewrites the
storage slot with the whole updated list. -/
def handleSaveImage (now idx : Nat) (imageUrl : String) (s : SaveState) :
    SaveState :=
  let newImage := StoredImage.mk (mkId now idx) imageUrl now
  let updated := s.savedImages ++ [newImage]
  SaveState.mk updated (some updated)

/-- `dropAfterComma` finds nothing exactly when the list has no comma. -/
theorem dropAfterComma_eq_none_iff (s : List Char) :
    dropAfterComma s = none ↔ ',' ∉ s := by
  induction s with
  | nil => simp [dropAfterComma]
  | cons c cs ih =>
    by_cases hc : c = ','
    · subst hc
      simp [dropAfterComma]
    · simp only [dropAfterComma, if_neg hc, ih, List.mem_cons]
      constructor
      · rintro h (h1 | h2)
        · exact hc h1.symm
        · exact h h2
      · intro h
        exact fun h2 => h (Or.inr h2)

/-- `stripChars` leaves a list unchanged unless it both starts with `data:`
and contains a comma. -/
theorem stripChars_eq_self (s : List Char)
    (h : listStartsWith "data:".toList s = false ∨ ',' ∉ s) :
    stripChars s = s := by
  unfold stripChars
  by_cases hp : listStartsWith "data:".toList s = true
  · rcases h with h | h
    · rw [hp] at h
      exact absurd h (by decide)
    · rw [if_pos hp, (dropAfterComma_eq_none_iff s).mpr h]
  · rw [if_neg hp]

/-- Claim C5 (amended): stripping a data-URI prefix twice agrees with
stripping once for every string whose once-stripped result does not itself
both start with `data:` and contain a comma; a string that does not start
with `data:` passes through unchanged. -/
theorem c5_strip_idempotent_on_safe_strings (x : String)
    (h : listStartsWith "data:".toList ( stripDataPrefix x).toList = false
          ∨ ',' ∉ ( stripDataPrefix x).toList) :
    stripDataPrefix ( stripDataPrefix x) = stripDataPrefix x
    ∧ (listStartsWith "data:".toList x.toList = false
        → stripDataPrefix x = x) := by
  constructor
  · show String.mk (stripChars (stripChars x.toList)) = _
    rw [stripChars_eq_self (stripChars x.toList) h]
    rfl
  · intro hx
    show String.mk (stripChars x.toList) = x
    rw [stripChars_eq_self x.toList (Or.inl hx)]
    rfl

/-- Claim C5, as stated, fails: the payload of this data URI itself starts
with `data:` and contains a comma, so a second strip removes more. -/
theorem c5_counterexample :
    stripDataPrefix ( stripDataPrefix "data:a,data:b,c")
      ≠ stripDataPrefix "data:a,data:b,c" := by decide

/-- Witness for the amended claim C5 at a concrete data URI. -/
theorem c5_witness :
    (listStartsWith "data:".toList
        ( stripDataPrefix "data:image/png;base64,AAAA").toList = false
      ∨ ',' ∉ ( stripDataPrefix "data:image/png;base64,AAAA").toList)
    ∧ stripDataPrefix ( stripDataPrefix "data:image/png;base64,AAAA")
        = stripDataPrefix "data:image/png;base64,AAAA"
    ∧ stripDataPrefix "plain" = "plain" :=
  ⟨Or.inl (by decide),
   (c5_strip_idempotent_on_safe_strings "data:image/png;base64,AAAA"
      (Or.inl (by decide))).1,
   (c5_strip_idempotent_on_safe_strings "plain" (Or.inl (by decide))).2
      (by decide)⟩

/-- Folding the character-image push loop over any accumulator appends one
part per contributing entry, in list order. -/
theorem foldl_pushCharPart_eq (l : List (Option ImageRef))
    (init : List ReqPart) :
    l.foldl pushCharPart init = init ++ l.filterMap charPartOf := by
  induction l generalizing init with
  | nil => simp
  | cons a l ih =>
    cases a with
    | none => simp [pushCharPart, charPartOf, ih]
    | some c =>
      by_cases hc : (!(c.base64 == "")) = true
      · simp [pushCharPart, charPartOf, hc, ih]
      · simp [pushCharPart, charPartOf,
          Bool.not_eq_true _ ▸ hc, ih]

/-- A filter followed by a map is the `filterMap` of the guarded
projection. -/
theorem filter_map_eq_filterMap {α β : Type} (p : α → Bool) (f : α → β)
    (l : List α) :
    (l.filter p).map f
      = l.filterMap (fun a => if p a then some (f a) else none) := by
  induction l with
  | nil => simp
  | cons a l ih =>
    by_cases ha : p a = true
    · simp [List.filter_cons, ha, ih]
    · simp [List.filter_cons, ha, ih]

/-- Claim C1: the request parts built by `generateImageWithGemini` are the
prompt text part first, then the background inline part exactly when the
usage flag is set and the background payload is truthy, then one inline
part per character entry with a truthy payload, in original list order;
and the character list the app passes preserves the original slot order
(selection is a per-slot flag, so the order selections were made cannot
influence it). -/
theorem c1_request_parts_order (p : GenerateImageParams) :
    buildParts p =
      [ReqPart.text p.prompt]
      ++ (match p.backgroundImage with
          | some bg =>
              if p.useBackground && !(bg.base64 == "") then
                [ReqPart.inline bg.mimeType ( stripDataPrefix bg.base64)]
              else []
          | none => [])
      ++ p.characterImages.filterMap charPartOf
    ∧ ∀ chars : List CharacterImage,
        selectedCharImages chars
          = chars.filterMap (fun c =>
              if c.selected && truthyStr c.base64 && c.file.isSome then
                some (ImageRef.mk (c.base64.getD "") (fileTypeOf c))
              else none) := by
  constructor
  · unfold buildParts
    rw [foldl_pushCharPart_eq]
    cases hb : p.backgroundImage with
    | none => simp
    | some bg =>
      by_cases h : (p.useBackground && !(bg.base64 == "")) = true
      · simp [h]
      · simp [h]
  · intro chars
    unfold selectedCharImages
    rw [filter_map_eq_filterMap]

/-- Claim C7: a failure that is an `Error` whose message contains
`RESOURCE_EXHAUSTED` is replaced by the localized quota-exceeded message,
and the credential-reselection hook, when available, is invoked exactly
once. -/
theorem c7_quota_path (msg : String) (hook : Bool)
    (h : jsIncludes msg "RESOURCE_EXHAUSTED" = true) :
    (classifyError hook (JSValue.error msg)).raised
        = JSValue.error (if hook then quotaMsgHook else quotaMsgNoHook)
    ∧ (classifyError hook (JSValue.error msg)).hookCalls
        = (if hook then 1 else 0) := by
  cases hook <;> simp [classifyError, h]

/-- Witness for claim C7 at a concrete quota failure with the hook
available. -/
theorem c7_witness :
    jsIncludes "429 RESOURCE_EXHAUSTED: quota" "RESOURCE_EXHAUSTED" = true
    ∧ ((classifyError true
          (JSValue.error "429 RESOURCE_EXHAUSTED: quota")).raised
        = JSValue.error (if true then quotaMsgHook else quotaMsgNoHook)
      ∧ (classifyError true
          (JSValue.error "429 RESOURCE_EXHAUSTED: quota")).hookCalls
        = (if true then 1 else 0)) :=
  ⟨by decide,
   c7_quota_path "429 RESOURCE_EXHAUSTED: quota" true (by decide)⟩

/-- Claim C8: a failure whose message contains neither known substring —
and any non-`Error` thrown value — is re-raised unchanged, with no hook
invocation. -/
theorem c8_passthrough (e : JSValue) (hook : Bool)
    (h : ∀ msg, e = JSValue.error msg
          → jsIncludes msg "RESOURCE_EXHAUSTED" = false
            ∧ jsIncludes msg "Requested entity was not found." = false) :
    classifyError hook e = ClassifyOutcome.mk e 0 := by
  cases e with
  | error msg =>
    obtain ⟨h1, h2⟩ := h msg rfl
    simp [classifyError, h1, h2]
  | value v => simp [classifyError]

/-- Witness for claim C8 at a concrete unclassified failure. -/
theorem c8_witness :
    (∀ msg, JSValue.error "socket hang up" = JSValue.error msg
        → jsIncludes msg "RESOURCE_EXHAUSTED" = false
          ∧ jsIncludes msg "Requested entity was not found." = false)
    ∧ classifyError true (JSValue.error "socket hang up")
        = ClassifyOutcome.mk (JSValue.error "socket hang up") 0 :=
  ⟨fun msg hmsg => by cases hmsg; exact ⟨by decide, by decide⟩,
   c8_passthrough (JSValue.error "socket hang up") true
     (fun msg hmsg => by cases hmsg; exact ⟨by decide, by decide⟩)⟩

/-- Claim C10: when a message contains both known substrings, the quota
path wins because its check runs first; the raised message is the quota
message, which differs from the invalid-credential messages. -/
theorem c10_quota_precedence (msg : String) (hook : Bool)
    (h1 : jsIncludes msg "RESOURCE_EXHAUSTED" = true)
    (h2 : jsIncludes msg "Requested entity was not found." = true) :
    (classifyError hook (JSValue.error msg)).raised
        = JSValue.error (if hook then quotaMsgHook else quotaMsgNoHook)
    ∧ (classifyError hook (JSValue.error msg)).raised
        ≠ JSValue.error invalidKeyMsgHook
    ∧ (classifyError hook (JSValue.error msg)).raised
        ≠ JSValue.error invalidKeyMsgNoHook := by
  cases hook <;> simp [classifyError, h1] <;> constructor <;> decide

/-- Witness for claim C10 at a message carrying both substrings. -/
theorem c10_witness :
    jsIncludes "RESOURCE_EXHAUSTED Requested entity was not found."
        "RESOURCE_EXHAUSTED" = true
    ∧ jsIncludes "RESOURCE_EXHAUSTED Requested entity was not found."
        "Requested entity was not found." = true
    ∧ ((classifyError true (JSValue.error
          "RESOURCE_EXHAUSTED Requested entity was not found.")).raised
        = JSValue.error (if true then quotaMsgHook else quotaMsgNoHook)
      ∧ (classifyError true (JSValue.error
          "RESOURCE_EXHAUSTED Requested entity was not found.")).raised
        ≠ JSValue.error invalidKeyMsgHook
      ∧ (classifyError true (JSValue.error
          "RESOURCE_EXHAUSTED Requested entity was not found.")).raised
        ≠ JSValue.error invalidKeyMsgNoHook) :=
  ⟨by decide, by decide,
   c10_quota_precedence
     "RESOURCE_EXHAUSTED Requested entity was not found." true
     (by decide) (by decide)⟩

/-- Claim C6: the response handler returns the data URI rebuilt from the
first candidate's first content part's inline-image field when present,
and fails with the no-image error exactly when that field is absent. -/
theorem c6_response_extraction (r : GenResponse) :
    (∀ d, firstInline r = some d
        → processResponse r
            = Except.ok ("data:" ++ d.mimeType ++ ";base64," ++ d.data))
    ∧ (processResponse r = Except.error GenError.noImageReturned
        ↔ firstInline r = none) := by
  constructor
  · intro d hd
    simp [processResponse, hd]
  · cases hf : firstInline r with
    | none => simp [processResponse, hf]
    | some d => simp [processResponse, hf]

/-- Witness for claim C6 at a concrete response with an inline image and a
concrete empty response. -/
theorem c6_witness :
    (firstInline
        (GenResponse.mk (some [Candidate.mk (some (Content.mk
          (some [RespPart.mk (some (InlineData.mk "image/png" "AAAA"))])))]))
      = some (InlineData.mk "image/png" "AAAA"))
    ∧ processResponse
        (GenResponse.mk (some [Candidate.mk (some (Content.mk
          (some [RespPart.mk (some (InlineData.mk "image/png" "AAAA"))])))]))
      = Except.ok "data:image/png;base64,AAAA"
    ∧ processResponse (GenResponse.mk none)
      = Except.error GenError.noImageReturned :=
  ⟨by decide,
   (c6_response_extraction
      (GenResponse.mk (some [Candidate.mk (some (Content.mk
        (some [RespPart.mk (some (InlineData.mk "image/png" "AAAA"))])))]))).1
     (InlineData.mk "image/png" "AAAA") (by decide),
   (c6_response_extraction (GenResponse.mk none)).2.mpr (by decide)⟩

/-- Claim C2: when validation passes but either of the two jointly awaited
generation calls fails, an error message is set and the generated-images
list is left exactly as it was before the action. -/
theorem c2_failure_discards_partial_result (chars : List CharacterImage)
    (bg : BackgroundImage) (prompt : String) (aspect : Aspect)
    (r1 r2 : Except JSValue String) (s : AppState)
    (hv1 : ((selectedCharImages chars).isEmpty
        && ((bgImageOf bg).isNone || !bg.useBackground)) = false)
    (hv2 : (jsTrim prompt == "") = false)
    (herr : (∃ e, r1 = Except.error e) ∨ (∃ e, r2 = Except.error e)) :
    (applyEvents s (genTrace chars bg prompt aspect r1 r2)).generatedImages
        = s.generatedImages
    ∧ ∃ m, (applyEvents s (genTrace chars bg prompt aspect r1 r2)).error
        = some m := by
  rcases herr with ⟨e, he⟩ | ⟨e, he⟩
  · subst he
    simp [genTrace, hv1, hv2, promiseAll2, applyEvents, applyEv]
  · subst he
    cases r1 with
    | ok a => simp [genTrace, hv1, hv2, promiseAll2, applyEvents, applyEv]
    | error e1 =>
        simp [genTrace, hv1, hv2, promiseAll2, applyEvents, applyEv]

/-- Witness for claim C2: one selected character, the first call fails, the
second succeeds; the prior result list survives untouched. -/
theorem c2_witness :
    ((selectedCharImages
        [CharacterImage.mk "char-1" (some (JSFile.mk "image/png"))
          (some "AAAA") true none]).isEmpty
      && ((bgImageOf (BackgroundImage.mk none none none false)).isNone
          || !(BackgroundImage.mk none none none false).useBackground))
      = false
    ∧ (jsTrim "mô tả" == "") = false
    ∧ ((applyEvents (AppState.mk false none ["old"])
          (genTrace
            [CharacterImage.mk "char-1" (some (JSFile.mk "image/png"))
              (some "AAAA") true none]
            (BackgroundImage.mk none none none false) "mô tả" Aspect.square
            (Except.error (JSValue.error "boom"))
            (Except.ok "img"))).generatedImages
        = (AppState.mk false none ["old"]).generatedImages
      ∧ ∃ m, (applyEvents (AppState.mk false none ["old"])
          (genTrace
            [CharacterImage.mk "char-1" (some (JSFile.mk "image/png"))
              (some "AAAA") true none]
            (BackgroundImage.mk none none none false) "mô tả" Aspect.square
            (Except.error (JSValue.error "boom"))
            (Except.ok "img"))).error = some m) :=
  ⟨by decide, by decide,
   c2_failure_discards_partial_result
     [CharacterImage.mk "char-1" (some (JSFile.mk "image/png"))
       (some "AAAA") true none]
     (BackgroundImage.mk none none none false) "mô tả" Aspect.square
     (Except.error (JSValue.error "boom")) (Except.ok "img")
     (AppState.mk false none ["old"]) (by decide) (by decide)
     (Or.inl ⟨JSValue.error "boom", rfl⟩)⟩

/-- Claim C3: when validation passes and both jointly awaited calls
succeed, the new generated-images list is exactly the two new results
prepended in front of the old list. -/
theorem c3_success_prepends (chars : List CharacterImage)
    (bg : BackgroundImage) (prompt : String) (aspect : Aspect)
    (a b : String) (s : AppState)
    (hv1 : ((selectedCharImages chars).isEmpty
        && ((bgImageOf bg).isNone || !bg.useBackground)) = false)
    (hv2 : (jsTrim prompt == "") = false) :
    (applyEvents s
        (genTrace chars bg prompt aspect (Except.ok a) (Except.ok b))
      ).generatedImages
      = a :: b :: s.generatedImages := by
  simp [genTrace, hv1, hv2, promiseAll2, applyEvents, applyEv]

/-- Witness for claim C3: both calls succeed and both data URIs land in
front of the prior results. -/
theorem c3_witness :
    ((selectedCharImages
        [CharacterImage.mk "char-1" (some (JSFile.mk "image/png"))
          (some "AAAA") true none]).isEmpty
      && ((bgImageOf (BackgroundImage.mk none none none false)).isNone
          || !(BackgroundImage.mk none none none false).useBackground))
      = false
    ∧ (jsTrim "mô tả" == "") = false
    ∧ (applyEvents (AppState.mk false none ["old"])
        (genTrace
          [CharacterImage.mk "char-1" (some (JSFile.mk "image/png"))
            (some "AAAA") true none]
          (BackgroundImage.mk none none none false) "mô tả" Aspect.square
          (Except.ok "new1") (Except.ok "new2"))).generatedImages
      = "new1" :: "new2" :: (AppState.mk false none ["old"]).generatedImages :=
  ⟨by decide, by decide,
   c3_success_prepends
     [CharacterImage.mk "char-1" (some (JSFile.mk "image/png"))
       (some "AAAA") true none]
     (BackgroundImage.mk none none none false) "mô tả" Aspect.square
     "new1" "new2" (AppState.mk false none ["old"])
     (by decide) (by decide)⟩

/-- Claim C4 (amended): when no character image is selected and the
background is unused or absent, the action is rejected with the specific
validation message before any network call; the loading flag is set to true
as the handler's first step, but it is false again once the handler
returns. -/
theorem c4_rejected_before_network (chars : List CharacterImage)
    (bg : BackgroundImage) (prompt : String) (aspect : Aspect)
    (r1 r2 : Except JSValue String) (s : AppState)
    (hrej : ((selectedCharImages chars).isEmpty
        && ((bgImageOf bg).isNone || !bg.useBackground)) = true) :
    (∀ p, Ev.networkCall p ∉ genTrace chars bg prompt aspect r1 r2)
    ∧ (applyEvents s (genTrace chars bg prompt aspect r1 r2)).error
        = some noSelectionMsg
    ∧ (applyEvents s (genTrace chars bg prompt aspect r1 r2)).loading
        = false := by
  simp [genTrace, hrej, applyEvents, applyEv]

/-- Claim C4, as stated, fails: on a rejected action (nothing selected, no
background used) the handler still performs `setLoading(true)` as its first
step. -/
theorem c4_counterexample :
    ((selectedCharImages ([] : List CharacterImage)).isEmpty
      && ((bgImageOf (BackgroundImage.mk none none none false)).isNone
          || !(BackgroundImage.mk none none none false).useBackground))
      = true
    ∧ Ev.setLoading true
        ∈ genTrace [] (BackgroundImage.mk none none none false) "xin chào"
            Aspect.square (Except.ok "a") (Except.ok "b") := by decide

/-- Witness for the amended claim C4 at a concrete rejected action. -/
theorem c4_witness :
    ((selectedCharImages ([] : List CharacterImage)).isEmpty
      && ((bgImageOf (BackgroundImage.mk none none none false)).isNone
          || !(BackgroundImage.mk none none none false).useBackground))
      = true
    ∧ ((∀ p, Ev.networkCall p
          ∉ genTrace [] (BackgroundImage.mk none none none false) "xin chào"
              Aspect.square (Except.ok "a") (Except.ok "b"))
      ∧ (applyEvents (AppState.mk false none [])
          (genTrace [] (BackgroundImage.mk none none none false) "xin chào"
            Aspect.square (Except.ok "a") (Except.ok "b"))).error
          = some noSelectionMsg
      ∧ (applyEvents (AppState.mk false none [])
          (genTrace [] (BackgroundImage.mk none none none false) "xin chào"
            Aspect.square (Except.ok "a") (Except.ok "b"))).loading
          = false) :=
  ⟨by decide,
   c4_rejected_before_network [] (BackgroundImage.mk none none none false)
     "xin chào" Aspect.square (Except.ok "a") (Except.ok "b")
     (AppState.mk false none []) (by decide)⟩

/-- Claim C9: a save appends exactly one record carrying the saved URL, the
clock-derived id and the clock timestamp to the end of the saved list,
persists the whole updated list, and leaves every prior record in place;
two saves of the same URL yield two records distinguished by id whenever
the clock-derived ids differ. -/
theorem c9_save_appends (now idx now2 idx2 : Nat) (url : String)
    (s : SaveState)
    (hfresh : mkId now idx ∉ s.savedImages.map StoredImage.id)
    (hdiff : mkId now idx ≠ mkId now2 idx2) :
    (handleSaveImage now idx url s).savedImages
        = s.savedImages ++ [StoredImage.mk (mkId now idx) url now]
    ∧ (handleSaveImage now idx url s).storage
        = some (s.savedImages ++ [StoredImage.mk (mkId now idx) url now])
    ∧ ((s.savedImages.map StoredImage.id).Nodup
        → ((handleSaveImage now idx url s).savedImages.map
            StoredImage.id).Nodup)
    ∧ (handleSaveImage now2 idx2 url (handleSaveImage now idx url s)
        ).savedImages
        = s.savedImages
          ++ [StoredImage.mk (mkId now idx) url now,
              StoredImage.mk (mkId now2 idx2) url now2]
    ∧ (StoredImage.mk (mkId now idx) url now).id
        ≠ (StoredImage.mk (mkId now2 idx2) url now2).id := by
  refine ⟨rfl, rfl, ?_, by simp [handleSaveImage], hdiff⟩
  intro hnodup
  simp [handleSaveImage, List.nodup_append, hnodup, hfresh]

/-- Witness for claim C9: two saves of the same URL at different clock
values append two distinct records after the existing one. -/
theorem c9_witness :
    mkId 5 0 ∉ ([StoredImage.mk "1-0" "data:old" 1].map StoredImage.id)
    ∧ mkId 5 0 ≠ mkId 6 0
    ∧ ((handleSaveImage 5 0 "data:new"
          (SaveState.mk [StoredImage.mk "1-0" "data:old" 1]
            (some [StoredImage.mk "1-0" "data:old" 1]))).savedImages
        = [StoredImage.mk "1-0" "data:old" 1]
          ++ [StoredImage.mk (mkId 5 0) "data:new" 5]
      ∧ (handleSaveImage 5 0 "data:new"
          (SaveState.mk [StoredImage.mk "1-0" "data:old" 1]
            (some [StoredImage.mk "1-0" "data:old" 1]))).storage
        = some ([StoredImage.mk "1-0" "data:old" 1]
          ++ [StoredImage.mk (mkId 5 0) "data:new" 5])
      ∧ (([StoredImage.mk "1-0" "data:old" 1].map StoredImage.id).Nodup
          → (((handleSaveImage 5 0 "data:new"
              (SaveState.mk [StoredImage.mk "1-0" "data:old" 1]
                (some [StoredImage.mk "1-0" "data:old" 1]))).savedImages.map
                  StoredImage.id).Nodup))
      ∧ (handleSaveImage 6 0 "data:new"
          (handleSaveImage 5 0 "data:new"
            (SaveState.mk [StoredImage.mk "1-0" "data:old" 1]
              (some [StoredImage.mk "1-0" "data:old" 1])))).savedImages
        = [StoredImage.mk "1-0" "data:old" 1]
          ++ [StoredImage.mk (mkId 5 0) "data:new" 5,
              StoredImage.mk (mkId 6 0) "data:new" 6]
      ∧ (StoredImage.mk (mkId 5 0) "data:new" 5).id
          ≠ (StoredImage.mk (mkId 6 0) "data:new" 6).id) :=
  ⟨by decide, by decide,
   c9_save_appends 5 0 6 0 "data:new"
     (SaveState.mk [StoredImage.mk "1-0" "data:old" 1]
       (some [StoredImage.mk "1-0" "data:old" 1]))
     (by decide) (by decide)⟩
